import Mathlib

/-!
Verification development for the EarthX batch-verification and minting pipeline.

Shallow embedding of:
- `VerificationService` (weight verification, fraud detection, EIU rewards, audit log),
- `BlockchainService.triggerMint` / `updateBatchMintStatus` (mint orchestrator),
- `BatchService.updateBatchVerification` and `BatchController.verifyBatch`.

Numbers are modelled over `ℚ` (the source computes with JS numbers; all policy
arithmetic here is exact on the inputs the claims quantify over).  Database
reads are passed in as explicit parameters: a batch's member-transaction set is
an `Option (List Tx)` (`none` = batch row absent), database failures are
explicit boolean flags, and database writes are returned as explicit lists.
Display-only message strings interpolating `toFixed(2)` percentages are omitted
from result records; all decision-relevant fields are kept.
-/

namespace EarthX

/-- A member transaction of a batch, as selected by
`getBatchTransactionSummary` (id, citizen_id, weight_grams, created_at in
epoch milliseconds). -/
structure Tx where
  id : Nat
  citizen_id : Nat
  weight_grams : ℚ
  created_at : Int
deriving DecidableEq

/-- SUM(t.weight_grams) over the batch's member transactions
(COALESCE(..., 0) on the empty set). -/
def sumWeights (txs : List Tx) : ℚ := (txs.map Tx.weight_grams).sum

/-- Row returned by `VerificationService.getBatchTransactionSummary`. -/
structure BatchTransactionSummary where
  batchId : Nat
  transactionCount : Nat
  totalOriginalWeight : ℚ
  transactions : List Tx
deriving DecidableEq

/-- The SQL aggregation of `getBatchTransactionSummary`: COUNT of the joined
transactions and COALESCE(SUM(weight_grams), 0). -/
def summaryOf (batchId : Nat) (txs : List Tx) : BatchTransactionSummary :=
  ⟨batchId, txs.length, sumWeights txs, txs⟩

/-- `getBatchTransactionSummary`: `none` when the batch row does not exist or
the query fails (the method catches its own errors and returns null). -/
def getBatchTransactionSummary (dbFail : Bool) (batchId : Nat)
    (row : Option (List Tx)) : Option BatchTransactionSummary :=
  if dbFail then none
  else
    match row with
    | none => none
    | some txs => some (summaryOf batchId txs)

/-- Classification produced by `verifyBatchWeight`. -/
inductive VerifyStatus
  | APPROVED
  | FLAGGED
  | REJECTED
deriving DecidableEq

/-- `WeightComparisonResult` (the display `message` string is omitted). -/
structure WeightComparisonResult where
  isWithinTolerance : Bool
  weightDifferencePercentage : ℚ
  originalWeight : ℚ
  verifiedWeight : ℚ
  status : VerifyStatus
deriving DecidableEq

/-- `COLLECTION_LIMITS.TOLERANCE_PERCENTAGE` from controllers/types. -/
def TOLERANCE_PERCENTAGE : ℚ := 5

/-- One row of the `audit_log` table as inserted by
`logVerificationAttempt` (old_values carry the original weight, new_values the
verified weight, percentage and status). -/
structure AuditRow where
  batch_id : Nat
  recycler_id : Nat
  original_weight : ℚ
  verified_weight : ℚ
  weight_difference_percentage : ℚ
  status : VerifyStatus
deriving DecidableEq

/-- `logVerificationAttempt`: appends one audit row; its own insert failure is
caught and swallowed, appending nothing. -/
def logVerificationAttempt (auditOk : Bool) (row : AuditRow) : List AuditRow :=
  if auditOk then [row] else []

/-- The REJECTED result returned both on the degenerate empty/absent-batch path
and from the outer catch block of `verifyBatchWeight`. -/
def rejectedResult (verified_weight_total : ℚ) : WeightComparisonResult :=
  ⟨false, 100, 0, verified_weight_total, .REJECTED⟩

/-- `VerificationService.verifyBatchWeight`.  `internalError` models an
exception thrown inside the body (outer catch; any such throw happens before
the audit insert, the only statements after it being throw-free), `dbFail`
models the summary query failing, `auditOk` whether the audit insert succeeds.
Returns the result together with the audit rows appended by this call. -/
def verifyBatchWeight (internalError dbFail auditOk : Bool) (batch_id : Nat)
    (row : Option (List Tx)) (verified_weight_total : ℚ) (recycler_id : Nat) :
    WeightComparisonResult × List AuditRow :=
  if internalError then
    (rejectedResult verified_weight_total, [])
  else
    match getBatchTransactionSummary dbFail batch_id row with
    | none => (rejectedResult verified_weight_total, [])
    | some s =>
      if s.transactionCount = 0 then
        (rejectedResult verified_weight_total, [])
      else
        let originalWeight := s.totalOriginalWeight
        let verifiedWeight := verified_weight_total
        let weightDifference := |originalWeight - verifiedWeight|
        let weightDifferencePercentage : ℚ :=
          if 0 < originalWeight then weightDifference / originalWeight * 100 else 100
        let isWithinTolerance : Bool :=
          decide (weightDifferencePercentage ≤ TOLERANCE_PERCENTAGE)
        let status : VerifyStatus :=
          if isWithinTolerance then .APPROVED
          else if 20 < weightDifferencePercentage then .REJECTED
          else .FLAGGED
        let rows := logVerificationAttempt auditOk
          ⟨batch_id, recycler_id, originalWeight, verifiedWeight,
            weightDifferencePercentage, status⟩
        (⟨isWithinTolerance, weightDifferencePercentage, originalWeight,
          verifiedWeight, status⟩, rows)

/-- `VerificationService.calculateEIURewards` result record. -/
structure EIURewards where
  citizenRewards : ℚ
  collectorBonus : ℚ
  recyclerReward : ℚ
  totalEIU : ℚ
deriving DecidableEq

/-- `VerificationService.calculateEIURewards`. -/
def calculateEIURewards (verifiedWeight : ℚ) (transactionCount : Nat) : EIURewards :=
  let baseEIU := verifiedWeight * (1/10)
  let citizenRewards := baseEIU * (85/100)
  let collectorBonus := baseEIU * (10/100)
  let recyclerReward := baseEIU * (5/100)
  let volumeBonus : ℚ :=
    if 50 < transactionCount then baseEIU * (5/100)
    else if 20 < transactionCount then baseEIU * (2/100)
    else 0
  ⟨citizenRewards + volumeBonus * (6/10),
   collectorBonus + volumeBonus * (3/10),
   recyclerReward + volumeBonus * (1/10),
   baseEIU + volumeBonus⟩

/-- `verification_status` column values. -/
inductive VerificationStatus
  | pending
  | verified
  | rejected
deriving DecidableEq

/-- `mint_status` column values (`BLOCKCHAIN_CONSTANTS.MINT_STATUS`). -/
inductive MintStatus
  | PENDING_MINT
  | MINTED
  | FAILED_ON_CHAIN
  | RETRYING
deriving DecidableEq

/-- A row of the `batches` table (columns the pipeline reads or writes;
timestamps are epoch milliseconds). -/
structure BatchRow where
  id : Nat
  collector_id : Nat
  recycler_id : Option Nat
  total_weight_grams : ℚ
  ipfs_proof_hash : Option String
  verification_status : VerificationStatus
  mint_status : Option MintStatus
  tx_hash : Option String
  block_number : Option Nat
  retry_count : Nat
  last_attempt : Option Nat
  mint_error : Option String
deriving DecidableEq

/-- `MintResult` returned by `triggerMint`. -/
structure MintResult where
  success : Bool
  transactionHash : Option String := none
  blockNumber : Option Nat := none
  gasUsed : Option String := none
  error : Option String := none
  retryCount : Option Nat := none
deriving DecidableEq

/-- `Partial<BatchMintStatus>` as passed to `updateBatchMintStatus`; absent
fields are `none`. -/
structure PartialMintStatus where
  mintStatus : Option MintStatus := none
  txHash : Option String := none
  blockNumber : Option Nat := none
  retryCount : Option Nat := none
  lastAttempt : Option Nat := none
  error : Option String := none
deriving DecidableEq

/-- JS `x || null` on an optional string: absent or empty string coalesces to
null. -/
def jsOrNullStr : Option String → Option String
  | none => none
  | some s => if s = "" then none else some s

/-- JS `x || null` on an optional number: absent or 0 coalesces to null. -/
def jsOrNullNat : Option Nat → Option Nat
  | none => none
  | some n => if n = 0 then none else some n

/-- `BlockchainService.updateBatchMintStatus`: a single UPDATE that sets all
six mint columns from the partial status (`|| null` / `|| 0` coalescing),
leaving the other columns of the row unchanged. -/
def updateBatchMintStatus (b : BatchRow) (status : PartialMintStatus) : BatchRow :=
  { b with
    mint_status := status.mintStatus,
    tx_hash := jsOrNullStr status.txHash,
    block_number := jsOrNullNat status.blockNumber,
    retry_count := status.retryCount.getD 0,
    last_attempt := jsOrNullNat status.lastAttempt,
    mint_error := jsOrNullStr status.error }

/-- `BlockchainService.getBatchForMinting`: the SQL WHERE clause requires
`verification_status = 'verified'` and `mint_status` NULL or FAILED_ON_CHAIN. -/
def getBatchForMinting (row : Option BatchRow) : Option BatchRow :=
  match row with
  | none => none
  | some b =>
    if b.verification_status = .verified ∧
        (b.mint_status = none ∨ b.mint_status = some .FAILED_ON_CHAIN)
    then some b else none

/-- Result of `BlockchainService.getUserAddresses` (database-backed address
resolution, passed in as a parameter). -/
structure AddressResult where
  success : Bool
  collectorAddress : Option String := none
  recyclerAddress : Option String := none
  error : Option String := none
deriving DecidableEq

/-- Outcome of one `executeMintTransaction` attempt: either a confirmed
transaction, or a `BlockchainError` with its `retryable` flag
(`ContractError` and insufficient-funds errors carry `retryable = false`;
gas, nonce and generic transaction errors carry `retryable = true`). -/
inductive AttemptOutcome
  | success (txHash : String) (blockNumber : Nat) (gasUsed : String)
  | failure (message : String) (retryable : Bool)
deriving DecidableEq

/-- The failure message of the `MintResult` returned when the retry loop ends
without success. -/
def failAfterMsg (n : Nat) (m : String) : String :=
  "Failed after " ++ toString n ++ " retries: " ++ m

/-- The `while (retryCount < maxRetries)` retry loop of `triggerMint`,
including the post-loop FAILED_ON_CHAIN write.  `outcome k` is the result of
the attempt made with `retryCount = k`; `fuel` is `maxRetries − retryCount`
(the number of loop iterations still permitted); the returned list collects
the `updateBatchMintStatus` write arguments in order.  On an attempt failure
the counter is incremented first; a non-retryable `BlockchainError` then
breaks out of the loop before the RETRYING write. -/
def mintLoop (outcome : Nat → AttemptOutcome) (now : Nat) :
    Nat → Nat → Option String → MintResult × List PartialMintStatus
  | 0, retryCount, lastError =>
    ({ success := false,
       error := some (failAfterMsg retryCount (lastError.getD "Unknown error")),
       retryCount := some retryCount },
     [{ mintStatus := some .FAILED_ON_CHAIN, retryCount := some retryCount,
        lastAttempt := some now,
        error := some (lastError.getD "Unknown error") }])
  | fuel + 1, retryCount, _lastError =>
    match outcome retryCount with
    | .success h b g =>
      ({ success := true, transactionHash := some h, blockNumber := some b,
         gasUsed := some g, retryCount := some retryCount },
       [{ mintStatus := some .MINTED, txHash := some h, blockNumber := some b,
          retryCount := some retryCount }])
    | .failure msg retryable =>
      if retryable then
        let rest := mintLoop outcome now fuel (retryCount + 1) (some msg)
        (rest.1,
         { mintStatus := some .RETRYING, retryCount := some (retryCount + 1),
           lastAttempt := some now, error := some msg } :: rest.2)
      else
        ({ success := false,
           error := some (failAfterMsg (retryCount + 1) msg),
           retryCount := some (retryCount + 1) },
         [{ mintStatus := some .FAILED_ON_CHAIN,
            retryCount := some (retryCount + 1), lastAttempt := some now,
            error := some msg }])

/-- `BlockchainService.triggerMint`: eligibility check via
`getBatchForMinting`, address resolution, the PENDING_MINT write, then the
retry loop.  Returns the `MintResult` and the ordered list of
`updateBatchMintStatus` write arguments. -/
def triggerMint (maxRetries now : Nat) (row : Option BatchRow)
    (addresses : AddressResult) (outcome : Nat → AttemptOutcome) :
    MintResult × List PartialMintStatus :=
  match getBatchForMinting row with
  | none =>
    ({ success := false,
       error := some "Batch not found or not in APPROVED status" }, [])
  | some _b =>
    if addresses.success then
      let r := mintLoop outcome now maxRetries 0 none
      (r.1,
       { mintStatus := some .PENDING_MINT, retryCount := some 0,
         lastAttempt := some now } :: r.2)
    else
      ({ success := false, error := addresses.error }, [])

/-- Mapping applied by `BatchController.verifyBatch` from the verification
result status to the persisted `verification_status` value. -/
def statusToVerificationStatus : VerifyStatus → VerificationStatus
  | .APPROVED => .verified
  | .FLAGGED => .pending
  | .REJECTED => .rejected

/-- `BatchService.updateBatchVerification`: UPDATE of the batch row with the
recycler, the recycler-supplied verified weight written into
`total_weight_grams`, the proof hash and the new verification status
(display-only columns — proof_type, notes, rejection_reason, verified_at,
blockchain_batch_id — are omitted from the model). -/
def updateBatchVerification (b : BatchRow) (recycler_id : Nat)
    (verified_weight_total : ℚ) (ipfs_proof_hash : String)
    (verification_status : VerificationStatus) : BatchRow :=
  { b with
    recycler_id := some recycler_id,
    total_weight_grams := verified_weight_total,
    ipfs_proof_hash := some ipfs_proof_hash,
    verification_status := verification_status }

/-- The verification body of `BatchController.verifyBatch` once the batch has
passed the pending-status guard: run `verifyBatchWeight` on the batch's
member transactions, then write the result back via
`updateBatchVerification`. -/
def verifyBatchCore (internalError dbFail auditOk : Bool) (b : BatchRow)
    (txs : Option (List Tx)) (verified_weight_total : ℚ) (ipfs : String)
    (recycler_id : Nat) : WeightComparisonResult × BatchRow :=
  let r := (verifyBatchWeight internalError dbFail auditOk b.id txs
    verified_weight_total recycler_id).1
  (r, updateBatchVerification b recycler_id verified_weight_total ipfs
    (statusToVerificationStatus r.status))

/-- `BatchController.verifyBatch`: 404 when the batch does not exist, 400 when
it is not pending (both modelled as `none`); otherwise the verification body
runs and the response carries the result and the updated row. -/
def verifyBatchEndpoint (internalError dbFail auditOk : Bool)
    (batch : Option BatchRow) (txs : Option (List Tx))
    (verified_weight_total : ℚ) (ipfs : String) (recycler_id : Nat) :
    Option (WeightComparisonResult × BatchRow) :=
  match batch with
  | none => none
  | some b =>
    if b.verification_status = .pending then
      some (verifyBatchCore internalError dbFail auditOk b txs
        verified_weight_total ipfs recycler_id)
    else none

/-- Largest element of an integer list (`Math.max(...)`; 0 on the empty list,
which the callers guard against). -/
def listMaxI : List Int → Int
  | [] => 0
  | x :: xs => xs.foldl max x

/-- Smallest element of an integer list (`Math.min(...)`; 0 on the empty
list). -/
def listMinI : List Int → Int
  | [] => 0
  | x :: xs => xs.foldl min x

/-- Creation-timestamp span of a batch's transactions in milliseconds. -/
def timeSpan (txs : List Tx) : Int :=
  listMaxI (txs.map Tx.created_at) - listMinI (txs.map Tx.created_at)

/-- Result of `detectSuspiciousPatterns`. -/
structure SuspiciousResult where
  isSuspicious : Bool
  reasons : List String
  riskScore : Nat
deriving DecidableEq

/-- `VerificationService.detectSuspiciousPatterns`: additive heuristic scorer
over the batch summary; `none` models the batch-not-found (or summary
failure) path. -/
def detectSuspiciousPatterns (summary : Option BatchTransactionSummary) :
    SuspiciousResult :=
  match summary with
  | none => ⟨true, ["Batch not found"], 100⟩
  | some s =>
    let smallTransactions :=
      s.transactions.filter (fun t => decide (t.weight_grams < 100))
    let check1 : Bool :=
      decide ((s.transactionCount : ℚ) * (8/10) < (smallTransactions.length : ℚ))
    let uniqueWeights := (s.transactions.map Tx.weight_grams).dedup
    let check2 : Bool := decide (uniqueWeights.length = 1 ∧ 5 < s.transactionCount)
    let citizens := s.transactions.map Tx.citizen_id
    let duplicateCitizens :=
      citizens.dedup.filter (fun c => decide (1 < citizens.count c))
    let check3 : Bool := decide (0 < duplicateCitizens.length)
    let avgWeight : ℚ := s.totalOriginalWeight / (s.transactionCount : ℚ)
    let check4 : Bool := decide (10000 < avgWeight)
    let check5 : Bool :=
      decide (1 < s.transactions.length ∧ timeSpan s.transactions < 60000)
    let riskScore : Nat :=
      (if check1 then 30 else 0) + (if check2 then 40 else 0) +
        (if check3 then 20 else 0) + (if check4 then 25 else 0) +
        (if check5 then 15 else 0)
    let reasons : List String :=
      (if check1 then ["High concentration of small transactions (< 100g)"]
        else []) ++
      (if check2 then ["All transactions have identical weight values"]
        else []) ++
      (if check3 then
        [toString duplicateCitizens.length ++
          " citizens have multiple transactions in same batch"] else []) ++
      (if check4 then ["Unusually high average weight per transaction"]
        else []) ++
      (if check5 then
        ["All transactions recorded within very short time period"] else [])
    ⟨decide (50 < riskScore), reasons, riskScore⟩

/-- Modelled from the spec's words, for comparison with
`detectSuspiciousPatterns` (claim C9): "+30 when at least 80% of the
transactions weigh under 100g each" (inclusive bound) and "+15 when all
creation timestamps span under 60 seconds" (no two-transaction guard); the
other three heuristics and the batch-not-found score of 100 as in the claim. -/
def claimedRiskScore (summary : Option BatchTransactionSummary) : Nat :=
  match summary with
  | none => 100
  | some s =>
    (if (s.transactionCount : ℚ) * (8/10) ≤
        ((s.transactions.filter (fun t => decide (t.weight_grams < 100))).length : ℚ)
      then 30 else 0) +
      (if (s.transactions.map Tx.weight_grams).dedup.length = 1 ∧
          5 < s.transactionCount then 40 else 0) +
      (if ¬ (s.transactions.map Tx.citizen_id).Nodup then 20 else 0) +
      (if 10000 < s.totalOriginalWeight / (s.transactionCount : ℚ) then 25
        else 0) +
      (if timeSpan s.transactions < 60000 then 15 else 0)

/-- Concrete batch row used as a counterexample/witness input: pending,
awaiting verification. -/
def pendingBatchRow : BatchRow :=
  { id := 7, collector_id := 3, recycler_id := none,
    total_weight_grams := 1040, ipfs_proof_hash := none,
    verification_status := .pending, mint_status := none, tx_hash := none,
    block_number := none, retry_count := 0, last_attempt := none,
    mint_error := none }

/-- Concrete member transactions summing to 1040 g. -/
def txsSum1040 : List Tx := [⟨1, 1, 500, 0⟩, ⟨2, 2, 540, 100000⟩]

/-- Concrete one-transaction list of 600 g. -/
def txsSum600 : List Tx := [⟨3, 4, 600, 0⟩]

/-- Concrete one-transaction list of 200 g. -/
def txsSum200 : List Tx := [⟨5, 6, 200, 0⟩]

/-- Concrete batch of five transactions of which exactly four (80%) weigh
under 100 g, with distinct weights and citizens, average weight 1052 g and a
timestamp span of 400 s: no code heuristic triggers. -/
def txsBoundary80 : List Tx :=
  [⟨1, 1, 50, 0⟩, ⟨2, 2, 60, 100000⟩, ⟨3, 3, 70, 200000⟩,
    ⟨4, 4, 80, 300000⟩, ⟨5, 5, 5000, 400000⟩]

/-- Concrete batch row used as a witness input: verified and already MINTED. -/
def alreadyMintedRow : BatchRow :=
  { id := 11, collector_id := 3, recycler_id := some 9,
    total_weight_grams := 1000, ipfs_proof_hash := some "QmProof",
    verification_status := .verified, mint_status := some .MINTED,
    tx_hash := some "0xdead", block_number := some 41, retry_count := 0,
    last_attempt := some 1700000000, mint_error := none }

/-- Concrete address-resolution success used as a witness input. -/
def addressesOk : AddressResult :=
  { success := true, collectorAddress := some "0xc01",
    recyclerAddress := some "0xr02" }

/-- Concrete attempt oracle whose every attempt succeeds. -/
def alwaysSucceeds : Nat → AttemptOutcome :=
  fun _ => AttemptOutcome.success "0xabc" 77 "21000"

/-- Concrete attempt oracle whose every attempt is a contract revert
(non-retryable). -/
def alwaysReverts : Nat → AttemptOutcome :=
  fun _ => AttemptOutcome.failure "Contract revert: execution reverted" false

/-- Concrete RETRYING partial status carrying no transaction hash or block
number, as written by the retry loop. -/
def retryingStatusW : PartialMintStatus :=
  { mintStatus := some .RETRYING, retryCount := some 1,
    lastAttempt := some 1700000000, error := some "Transaction failed: timeout" }

end EarthX

namespace EarthX

/-- Claim C6: a batch with zero member transactions, or a batch id that does
not exist, is always REJECTED with 100% difference and originalWeight 0,
regardless of the supplied verified weight. -/
theorem verifyBatchWeight_empty_batch_rejected (auditOk : Bool)
    (bid rid : Nat) (v : ℚ) (row : Option (List Tx))
    (h : row = none ∨ row = some []) :
    (verifyBatchWeight false false auditOk bid row v rid).1 =
      ⟨false, 100, 0, v, .REJECTED⟩ := by
  rcases h with h | h <;> subst h <;> rfl

/-- Claim C6 witness: concrete instantiation at a missing batch. -/
theorem verifyBatchWeight_empty_batch_rejected_witness :
    (verifyBatchWeight false false true 1 none 42 2).1 =
      ⟨false, 100, 0, 42, .REJECTED⟩ :=
  verifyBatchWeight_empty_batch_rejected true 1 2 42 none (Or.inl rfl)

/-- Claim C5: `verifyBatchWeight` is total (it is a Lean function, so it never
throws), and on any internal failure — an exception inside the body or a
failing summary query — it returns the REJECTED classification with
weightDifferencePercentage 100 rather than approving or propagating. -/
theorem verifyBatchWeight_fail_closed (internalError dbFail auditOk : Bool)
    (bid rid : Nat) (row : Option (List Tx)) (v : ℚ)
    (h : internalError = true ∨ dbFail = true) :
    (verifyBatchWeight internalError dbFail auditOk bid row v rid).1.status =
        .REJECTED ∧
      (verifyBatchWeight internalError dbFail auditOk bid row v
          rid).1.weightDifferencePercentage = 100 := by
  rcases h with h | h <;> subst h
  · exact ⟨rfl, rfl⟩
  · cases internalError
    · cases row <;> exact ⟨rfl, rfl⟩
    · exact ⟨rfl, rfl⟩

/-- Claim C5 witness: concrete instantiation at a storage failure. -/
theorem verifyBatchWeight_fail_closed_witness :
    (verifyBatchWeight false true true 3 (some []) 500 2).1.status =
        VerifyStatus.REJECTED ∧
      (verifyBatchWeight false true true 3 (some []) 500
          2).1.weightDifferencePercentage = 100 :=
  verifyBatchWeight_fail_closed false true true 3 2 (some []) 500 (Or.inr rfl)

/-- Claim C1: for a batch with at least one member transaction (and positive
recomputed weight sum), `verifyBatchWeight` computes
percentDiff = |originalWeight − verifiedWeight| / originalWeight * 100 over the
recomputed sum of member transaction weights and classifies APPROVED iff
percentDiff ≤ 5, FLAGGED iff 5 < percentDiff ≤ 20, REJECTED iff
percentDiff > 20; in particular originalWeight = 1000 with
verifiedWeight ∈ [950, 1050] is APPROVED (5% boundary inclusive). -/
theorem verifyBatchWeight_classification (auditOk : Bool) (bid rid : Nat)
    (txs : List Tx) (v : ℚ) (hne : txs ≠ []) (hpos : 0 < sumWeights txs) :
    (verifyBatchWeight false false auditOk bid (some txs) v rid).1.originalWeight
        = sumWeights txs ∧
      (verifyBatchWeight false false auditOk bid (some txs) v
            rid).1.weightDifferencePercentage =
        |sumWeights txs - v| / sumWeights txs * 100 ∧
      ((verifyBatchWeight false false auditOk bid (some txs) v rid).1.status =
            .APPROVED ↔
          |sumWeights txs - v| / sumWeights txs * 100 ≤ 5) ∧
      ((verifyBatchWeight false false auditOk bid (some txs) v rid).1.status =
            .FLAGGED ↔
          5 < |sumWeights txs - v| / sumWeights txs * 100 ∧
            |sumWeights txs - v| / sumWeights txs * 100 ≤ 20) ∧
      ((verifyBatchWeight false false auditOk bid (some txs) v rid).1.status =
            .REJECTED ↔
          20 < |sumWeights txs - v| / sumWeights txs * 100) ∧
      (sumWeights txs = 1000 → 950 ≤ v → v ≤ 1050 →
        (verifyBatchWeight false false auditOk bid (some txs) v rid).1.status =
          .APPROVED) := by
  have hlen : txs.length ≠ 0 := by simpa [List.length_eq_zero] using hne
  have hin : ∀ h1000 : sumWeights txs = 1000, 950 ≤ v → v ≤ 1050 →
      |sumWeights txs - v| / sumWeights txs * 100 ≤ 5 := by
    intro h1000 h950 h1050
    rw [h1000]
    have habs : |(1000 : ℚ) - v| ≤ 50 := abs_le.mpr ⟨by linarith, by linarith⟩
    rw [div_mul_eq_mul_div, div_le_iff₀ (by norm_num : (0 : ℚ) < 1000)]
    linarith
  by_cases hA : |sumWeights txs - v| / sumWeights txs * 100 ≤ 5
  · have hr : (verifyBatchWeight false false auditOk bid (some txs) v rid).1 =
        ⟨true, |sumWeights txs - v| / sumWeights txs * 100, sumWeights txs, v,
          .APPROVED⟩ := by
      simp [verifyBatchWeight, getBatchTransactionSummary, summaryOf, hlen,
        hpos, TOLERANCE_PERCENTAGE, hA]
    rw [hr]
    exact ⟨rfl, rfl, by simp [hA],
      Iff.intro (fun h => VerifyStatus.noConfusion h)
        (fun h => absurd hA (not_le.mpr h.1)),
      Iff.intro (fun h => VerifyStatus.noConfusion h)
        (fun h => absurd hA (not_le.mpr (by linarith))),
      fun _ _ _ => rfl⟩
  · have h5 : 5 < |sumWeights txs - v| / sumWeights txs * 100 := lt_of_not_le hA
    by_cases hR : 20 < |sumWeights txs - v| / sumWeights txs * 100
    · have hr : (verifyBatchWeight false false auditOk bid (some txs) v rid).1 =
          ⟨false, |sumWeights txs - v| / sumWeights txs * 100, sumWeights txs,
            v, .REJECTED⟩ := by
        simp [verifyBatchWeight, getBatchTransactionSummary, summaryOf, hlen,
          hpos, TOLERANCE_PERCENTAGE, hA, hR]
      rw [hr]
      exact ⟨rfl, rfl,
        Iff.intro (fun h => VerifyStatus.noConfusion h) (fun h => absurd h hA),
        Iff.intro (fun h => VerifyStatus.noConfusion h)
          (fun h => absurd hR (not_lt.mpr h.2)),
        Iff.intro (fun _ => hR) (fun _ => rfl),
        fun h1000 h950 h1050 => absurd (hin h1000 h950 h1050) hA⟩
    · have hr : (verifyBatchWeight false false auditOk bid (some txs) v rid).1 =
          ⟨false, |sumWeights txs - v| / sumWeights txs * 100, sumWeights txs,
            v, .FLAGGED⟩ := by
        simp [verifyBatchWeight, getBatchTransactionSummary, summaryOf, hlen,
          hpos, TOLERANCE_PERCENTAGE, hA, hR]
      rw [hr]
      exact ⟨rfl, rfl,
        Iff.intro (fun h => VerifyStatus.noConfusion h) (fun h => absurd h hA),
        Iff.intro (fun _ => ⟨h5, le_of_not_lt hR⟩) (fun _ => rfl),
        Iff.intro (fun h => VerifyStatus.noConfusion h) (fun h => absurd h hR),
        fun h1000 h950 h1050 => absurd (hin h1000 h950 h1050) hA⟩

/-- Claim C1 witness: a one-transaction batch of 1000 g verified at 1040 g is
approved with a 4% difference. -/
theorem verifyBatchWeight_classification_witness :
    (verifyBatchWeight false false true 1 (some [⟨1, 1, 1000, 0⟩]) 1040
        2).1.status = VerifyStatus.APPROVED := by
  have h := verifyBatchWeight_classification true 1 2 [⟨1, 1, 1000, 0⟩] 1040
    (by decide) (by norm_num [sumWeights])
  exact h.2.2.2.2.2 (by norm_num [sumWeights]) (by norm_num) (by norm_num)

/-- Claim C7: `calculateEIURewards` returns baseEIU = verifiedWeight * 0.1
split 85/10/5, plus a volume bonus of 5% of baseEIU when transactionCount > 50,
2% when 20 < transactionCount ≤ 50 and 0 otherwise, re-split 60/30/10 onto the
three shares, with totalEIU = baseEIU + volumeBonus; in particular
verifiedWeight = 10000 with transactionCount = 10 yields
(850, 100, 50, 1000). -/
theorem calculateEIURewards_split (w : ℚ) (n : Nat) :
    (calculateEIURewards w n).citizenRewards =
        w * (1/10) * (85/100) +
          (if 50 < n then w * (1/10) * (5/100)
            else if 20 < n ∧ n ≤ 50 then w * (1/10) * (2/100) else 0) * (6/10) ∧
      (calculateEIURewards w n).collectorBonus =
        w * (1/10) * (10/100) +
          (if 50 < n then w * (1/10) * (5/100)
            else if 20 < n ∧ n ≤ 50 then w * (1/10) * (2/100) else 0) * (3/10) ∧
      (calculateEIURewards w n).recyclerReward =
        w * (1/10) * (5/100) +
          (if 50 < n then w * (1/10) * (5/100)
            else if 20 < n ∧ n ≤ 50 then w * (1/10) * (2/100) else 0) * (1/10) ∧
      (calculateEIURewards w n).totalEIU =
        w * (1/10) +
          (if 50 < n then w * (1/10) * (5/100)
            else if 20 < n ∧ n ≤ 50 then w * (1/10) * (2/100) else 0) ∧
      calculateEIURewards 10000 10 = ⟨850, 100, 50, 1000⟩ := by
  have hinst : calculateEIURewards 10000 10 = ⟨850, 100, 50, 1000⟩ := by
    simp only [calculateEIURewards]
    norm_num
  refine ⟨?_, ?_, ?_, ?_, hinst⟩
  all_goals
    by_cases h1 : 50 < n
    · simp [calculateEIURewards, h1]
    · by_cases h2 : 20 < n
      · have h3 : 20 < n ∧ n ≤ 50 := ⟨h2, by omega⟩
        simp [calculateEIURewards, h1, h2, h3]
      · have h4 : ¬(20 < n ∧ n ≤ 50) := fun hc => h2 hc.1
        simp [calculateEIURewards, h1, h2, h4]

/-- Claim C7 witness: concrete instantiation — 10000 g over 60 transactions
earns the 5% volume bonus, totalEIU = 1050. -/
theorem calculateEIURewards_split_witness :
    (calculateEIURewards 10000 60).totalEIU = 1050 := by
  have h := (calculateEIURewards_split 10000 60).2.2.2.1
  rw [h]
  norm_num

/-- Claim C2: `triggerMint` refuses — returning an unsuccessful result and
performing no mint-state write at all — whenever the batch does not exist, or
exists but is not verified, or its mint_status is anything other than null or
FAILED_ON_CHAIN (MINTED, PENDING_MINT, RETRYING); the refusal is independent
of the chain attempt oracle, so no submission is made. -/
theorem triggerMint_refuses_ineligible (maxRetries now : Nat)
    (row : Option BatchRow) (addr : AddressResult)
    (outcome : Nat → AttemptOutcome)
    (h : ∀ b, row = some b →
      b.verification_status ≠ .verified ∨
        (b.mint_status ≠ none ∧ b.mint_status ≠ some .FAILED_ON_CHAIN)) :
    triggerMint maxRetries now row addr outcome =
      ({ success := false,
         error := some "Batch not found or not in APPROVED status" }, []) := by
  cases row with
  | none => rfl
  | some b =>
    have hb := h b rfl
    have hcond : ¬(b.verification_status = .verified ∧
        (b.mint_status = none ∨ b.mint_status = some .FAILED_ON_CHAIN)) := by
      rintro ⟨h1, h2⟩
      rcases hb with hb | ⟨hb1, hb2⟩
      · exact hb h1
      · rcases h2 with h2 | h2
        · exact hb1 h2
        · exact hb2 h2
    simp only [triggerMint, getBatchForMinting, if_neg hcond]

/-- Claim C2 witness: a verified batch whose mint_status is already MINTED is
refused with no write, even though every chain attempt would succeed. -/
theorem triggerMint_refuses_ineligible_witness :
    triggerMint 3 1700000000 (some alreadyMintedRow) addressesOk
        alwaysSucceeds =
      ({ success := false,
         error := some "Batch not found or not in APPROVED status" }, []) := by
  refine triggerMint_refuses_ineligible 3 1700000000 (some alreadyMintedRow)
    addressesOk alwaysSucceeds ?_
  rintro b hb
  cases hb
  right
  exact ⟨by decide, by decide⟩

/-- Claim C4: when the attempt made at counter value `retryCount` fails with a
non-retryable error, the retry loop aborts at once: the result and writes are
fixed regardless of any later attempt outcomes, no RETRYING status is written
for that error, and the single FAILED_ON_CHAIN write persists the error text
with retry_count at the value reached when the error occurred (the one
increment charged to the failing attempt, nothing further). -/
theorem mintLoop_nonretryable_aborts (outcome : Nat → AttemptOutcome)
    (now fuel retryCount : Nat) (lastError : Option String) (msg : String)
    (h : outcome retryCount = .failure msg false) :
    mintLoop outcome now (fuel + 1) retryCount lastError =
      ({ success := false,
         error := some (failAfterMsg (retryCount + 1) msg),
         retryCount := some (retryCount + 1) },
       [{ mintStatus := some .FAILED_ON_CHAIN,
          retryCount := some (retryCount + 1), lastAttempt := some now,
          error := some msg }]) := by
  unfold mintLoop
  rw [h]
  rfl

/-- Claim C4 witness: a contract revert on the very first attempt (counter 0)
ends the loop with a single FAILED_ON_CHAIN write and retry_count 1. -/
theorem mintLoop_nonretryable_aborts_witness :
    mintLoop alwaysReverts 1700000000 3 0 none =
      ({ success := false,
         error := some (failAfterMsg 1 "Contract revert: execution reverted"),
         retryCount := some 1 },
       [{ mintStatus := some .FAILED_ON_CHAIN, retryCount := some 1,
          lastAttempt := some 1700000000,
          error := some "Contract revert: execution reverted" }]) :=
  mintLoop_nonretryable_aborts alwaysReverts 1700000000 2 0 none
    "Contract revert: execution reverted" rfl

/-- Claim C10: every `updateBatchMintStatus` call overwrites all six mint
columns in one update — the resulting mint columns do not depend on the
previous row, any absent field is written as NULL (retry_count as 0) rather
than left unchanged, and non-mint columns are untouched; in particular a
RETRYING or FAILED_ON_CHAIN write carrying no hash clears any previously
stored transaction hash and block number. -/
theorem updateBatchMintStatus_overwrites (b b' : BatchRow)
    (s : PartialMintStatus) :
    ((updateBatchMintStatus b s).mint_status, (updateBatchMintStatus b s).tx_hash,
        (updateBatchMintStatus b s).block_number,
        (updateBatchMintStatus b s).retry_count,
        (updateBatchMintStatus b s).last_attempt,
        (updateBatchMintStatus b s).mint_error) =
      ((updateBatchMintStatus b' s).mint_status,
        (updateBatchMintStatus b' s).tx_hash,
        (updateBatchMintStatus b' s).block_number,
        (updateBatchMintStatus b' s).retry_count,
        (updateBatchMintStatus b' s).last_attempt,
        (updateBatchMintStatus b' s).mint_error) ∧
      (s.txHash = none → (updateBatchMintStatus b s).tx_hash = none) ∧
      (s.blockNumber = none → (updateBatchMintStatus b s).block_number = none) ∧
      (s.retryCount = none → (updateBatchMintStatus b s).retry_count = 0) ∧
      (s.lastAttempt = none → (updateBatchMintStatus b s).last_attempt = none) ∧
      (s.error = none → (updateBatchMintStatus b s).mint_error = none) ∧
      (updateBatchMintStatus b s).mint_status = s.mintStatus ∧
      (updateBatchMintStatus b s).verification_status = b.verification_status ∧
      (updateBatchMintStatus b s).total_weight_grams = b.total_weight_grams := by
  refine ⟨rfl, ?_, ?_, ?_, ?_, ?_, rfl, rfl, rfl⟩
  · intro h
    simp [updateBatchMintStatus, jsOrNullStr, h]
  · intro h
    simp [updateBatchMintStatus, jsOrNullNat, h]
  · intro h
    simp [updateBatchMintStatus, h]
  · intro h
    simp [updateBatchMintStatus, jsOrNullNat, h]
  · intro h
    simp [updateBatchMintStatus, jsOrNullStr, h]

/-- Claim C10 witness: applying a RETRYING write that carries no hash to a row
holding a stored transaction hash clears the hash. -/
theorem updateBatchMintStatus_overwrites_witness :
    (updateBatchMintStatus alreadyMintedRow retryingStatusW).tx_hash = none :=
  (updateBatchMintStatus_overwrites alreadyMintedRow alreadyMintedRow
      retryingStatusW).2.1 rfl

/-- Claim C3 counterexample: a pending batch whose two member transactions sum
to 1040 g, verified at 1000 g (3.85% difference, APPROVED, verification
completes), ends with persisted total_weight_grams = 1000 ≠ 1040 — the stored
declared total is the recycler-supplied weight, not the recomputed sum. -/
theorem verifyBatch_stored_total_not_sum_cex :
    verifyBatchEndpoint false false true (some pendingBatchRow)
        (some txsSum1040) 1000 "QmC3ProofHash" 9 =
      some (⟨true, 50/13, 1040, 1000, .APPROVED⟩,
        { pendingBatchRow with
          recycler_id := some 9,
          total_weight_grams := 1000,
          ipfs_proof_hash := some "QmC3ProofHash",
          verification_status := .verified }) ∧
      sumWeights txsSum1040 = 1040 ∧
      (1000 : ℚ) ≠ 1040 := by
  have habs : |(1040 : ℚ) - 1000| = 40 := by
    rw [show (1040 : ℚ) - 1000 = 40 by norm_num]
    exact abs_of_pos (by norm_num)
  have habs40 : |(40 : ℚ)| = 40 := abs_of_pos (by norm_num)
  refine ⟨?_, by norm_num [sumWeights, txsSum1040], by norm_num⟩
  norm_num [verifyBatchEndpoint, verifyBatchCore, verifyBatchWeight,
    getBatchTransactionSummary, summaryOf, updateBatchVerification,
    statusToVerificationStatus, logVerificationAttempt, sumWeights,
    txsSum1040, pendingBatchRow, TOLERANCE_PERCENTAGE, habs, habs40]

/-- Claim C3 (amended): the verification flow recomputes the member-weight sum
from the transaction set at verification time and classifies against it, but
the write-back stores the recycler-supplied verified weight in
total_weight_grams; the persisted declared total therefore equals the
recomputed sum iff the recycler-supplied value equals that sum. -/
theorem verifyBatch_stores_supplied_weight (internalError dbFail auditOk : Bool)
    (b : BatchRow) (txs : List Tx) (v : ℚ) (ipfs : String) (rid : Nat)
    (hpend : b.verification_status = .pending) (hne : txs ≠ []) :
    verifyBatchEndpoint internalError dbFail auditOk (some b) (some txs) v
        ipfs rid =
      some (verifyBatchCore internalError dbFail auditOk b (some txs) v ipfs
        rid) ∧
      (verifyBatchCore internalError dbFail auditOk b (some txs) v ipfs
          rid).2.total_weight_grams = v ∧
      (internalError = false → dbFail = false →
        (verifyBatchCore internalError dbFail auditOk b (some txs) v ipfs
            rid).1.originalWeight = sumWeights txs) ∧
      ((verifyBatchCore internalError dbFail auditOk b (some txs) v ipfs
            rid).2.total_weight_grams = sumWeights txs ↔
        v = sumWeights txs) := by
  have hlen : txs.length ≠ 0 := by simpa [List.length_eq_zero] using hne
  refine ⟨by simp [verifyBatchEndpoint, hpend], rfl, ?_, Iff.rfl⟩
  rintro rfl rfl
  simp [verifyBatchCore, verifyBatchWeight, getBatchTransactionSummary,
    summaryOf, hlen]

/-- Claim C3 witness: concrete instantiation — a pending batch with one 600 g
transaction verified at 600 g stores 600 as total. -/
theorem verifyBatch_stores_supplied_weight_witness :
    (verifyBatchCore false false true pendingBatchRow (some txsSum600) 600
        "QmC3ProofHash" 9).2.total_weight_grams = 600 :=
  (verifyBatch_stores_supplied_weight false false true pendingBatchRow
      txsSum600 600 "QmC3ProofHash" 9 rfl (by decide)).2.1

/-- Claim C8 counterexample: the invocation on a missing (or empty) batch
appends no audit-log row at all, refuting "every invocation appends exactly
one audit-log row". -/
theorem verifyBatchWeight_audit_cex :
    ¬ ((verifyBatchWeight false false true 1 none 100 2).2.length = 1) := by
  decide

/-- Claim C8 (amended): at most one audit row is ever appended, and exactly
one — recording the recomputed original weight and the supplied verified
weight — iff the call takes the normal classification path and the audit
insert itself succeeds; the degenerate empty-batch/not-found paths, the
internal-failure path, and a swallowed audit-insert failure append none. -/
theorem verifyBatchWeight_audit_rows (internalError dbFail auditOk : Bool)
    (bid rid : Nat) (row : Option (List Tx)) (v : ℚ) :
    ((verifyBatchWeight internalError dbFail auditOk bid row v rid).2 = [] ∨
        (verifyBatchWeight internalError dbFail auditOk bid row v
            rid).2.length = 1) ∧
      (internalError = true →
        (verifyBatchWeight internalError dbFail auditOk bid row v rid).2 = []) ∧
      (dbFail = true →
        (verifyBatchWeight internalError dbFail auditOk bid row v rid).2 = []) ∧
      (row = none →
        (verifyBatchWeight internalError dbFail auditOk bid row v rid).2 = []) ∧
      (row = some [] →
        (verifyBatchWeight internalError dbFail auditOk bid row v rid).2 = []) ∧
      (auditOk = false →
        (verifyBatchWeight internalError dbFail auditOk bid row v rid).2 = []) ∧
      (∀ txs, row = some txs → txs ≠ [] → internalError = false →
        dbFail = false → auditOk = true →
        (verifyBatchWeight internalError dbFail auditOk bid row v
            rid).2.length = 1 ∧
          (verifyBatchWeight internalError dbFail auditOk bid row v
              rid).2.map AuditRow.original_weight = [sumWeights txs] ∧
          (verifyBatchWeight internalError dbFail auditOk bid row v
              rid).2.map AuditRow.verified_weight = [v]) := by
  cases internalError with
  | true =>
    refine ⟨Or.inl rfl, fun _ => rfl, fun _ => rfl, fun _ => rfl,
      fun _ => rfl, fun _ => rfl, ?_⟩
    intro txs hrow hne hie
    exact absurd hie (by simp)
  | false =>
    cases dbFail with
    | true =>
      refine ⟨Or.inl rfl, ?_, fun _ => rfl, fun _ => rfl, fun _ => rfl,
        fun _ => rfl, ?_⟩
      · intro h
        exact absurd h (by simp)
      · intro txs hrow hne hie hdb
        exact absurd hdb (by simp)
    | false =>
      cases row with
      | none =>
        refine ⟨Or.inl rfl, ?_, ?_, fun _ => rfl, ?_, fun _ => rfl, ?_⟩
        · intro h
          exact absurd h (by simp)
        · intro h
          exact absurd h (by simp)
        · intro h
          exact absurd h (by simp)
        · intro txs hrow
          exact absurd hrow (by simp)
      | some txs =>
        cases txs with
        | nil =>
          refine ⟨Or.inl rfl, ?_, ?_, ?_, fun _ => rfl, fun _ => rfl, ?_⟩
          · intro h
            exact absurd h (by simp)
          · intro h
            exact absurd h (by simp)
          · intro h
            exact absurd h (by simp)
          · intro txs hrow hne
            rw [Option.some.injEq] at hrow
            exact absurd hrow.symm hne
        | cons t ts =>
          cases auditOk with
          | false =>
            refine ⟨Or.inl rfl, ?_, ?_, ?_, ?_, fun _ => rfl, ?_⟩
            · intro h
              exact absurd h (by simp)
            · intro h
              exact absurd h (by simp)
            · intro h
              exact absurd h (by simp)
            · intro h
              rw [Option.some.injEq] at h
              exact absurd h (by simp)
            · intro txs hrow hne hie hdb haud
              exact absurd haud (by simp)
          | true =>
            refine ⟨Or.inr rfl, ?_, ?_, ?_, ?_, ?_, ?_⟩
            · intro h
              exact absurd h (by simp)
            · intro h
              exact absurd h (by simp)
            · intro h
              exact absurd h (by simp)
            · intro h
              rw [Option.some.injEq] at h
              exact absurd h (by simp)
            · intro h
              exact absurd h (by simp)
            · intro txs hrow hne hie hdb haud
              rw [Option.some.injEq] at hrow
              subst hrow
              exact ⟨rfl, rfl, rfl⟩

/-- Claim C8 witness: concrete instantiation of the normal path — one audit
row recording the 200 g recomputed original weight and 1000 g supplied
weight. -/
theorem verifyBatchWeight_audit_rows_witness :
    (verifyBatchWeight false false true 1 (some txsSum200) 1000 2).2.length = 1 ∧
      (verifyBatchWeight false false true 1 (some txsSum200) 1000 2).2.map
          AuditRow.original_weight = [sumWeights txsSum200] :=
  let h := (verifyBatchWeight_audit_rows false false true 1 2 (some txsSum200)
    1000).2.2.2.2.2.2 txsSum200 rfl (by decide) rfl rfl rfl
  ⟨h.1, h.2.1⟩

/-- A list has a member counted more than once iff it is not Nodup; stated for
the duplicate-citizen filter of `detectSuspiciousPatterns`. -/
theorem dup_filter_pos_iff_not_nodup (l : List Nat) :
    0 < (l.dedup.filter (fun c => decide (1 < l.count c))).length ↔
      ¬ l.Nodup := by
  constructor
  · intro h
    obtain ⟨a, ha⟩ := List.exists_mem_of_length_pos h
    rw [List.mem_filter] at ha
    have hc : 1 < l.count a := of_decide_eq_true ha.2
    rw [List.nodup_iff_count_le_one]
    push_neg
    exact ⟨a, hc⟩
  · intro h
    rw [List.nodup_iff_count_le_one] at h
    push_neg at h
    obtain ⟨a, hc⟩ := h
    have hmem : a ∈ l := List.count_pos_iff.mp (by omega)
    refine List.length_pos_of_mem (a := a) ?_
    rw [List.mem_filter]
    exact ⟨List.mem_dedup.mpr hmem, decide_eq_true hc⟩

/-- Claim C9 counterexample: a found batch of five transactions of which
exactly four (80%) weigh under 100 g triggers no code heuristic
(riskScore 0), while the claim's "at least 80%" reading yields 30 — the code
uses a strict greater-than. -/
theorem detectSuspiciousPatterns_boundary_cex :
    (detectSuspiciousPatterns (some (summaryOf 4 txsBoundary80))).riskScore = 0 ∧
      claimedRiskScore (some (summaryOf 4 txsBoundary80)) = 30 ∧
      (detectSuspiciousPatterns (some (summaryOf 4 txsBoundary80))).riskScore ≠
        claimedRiskScore (some (summaryOf 4 txsBoundary80)) := by
  have hA : (detectSuspiciousPatterns (some (summaryOf 4 txsBoundary80))).riskScore = 0 := by
    norm_num [detectSuspiciousPatterns, summaryOf, txsBoundary80, sumWeights,
      timeSpan, listMaxI, listMinI, max_def, min_def, List.filter_cons,
      List.count_cons, List.dedup_cons_of_not_mem]
  have hB : claimedRiskScore (some (summaryOf 4 txsBoundary80)) = 30 := by
    norm_num [claimedRiskScore, summaryOf, txsBoundary80, sumWeights,
      timeSpan, listMaxI, listMinI, max_def, min_def, List.filter_cons,
      List.count_cons, List.dedup_cons_of_not_mem]
  exact ⟨hA, hB, by rw [hA, hB]; norm_num⟩

/-- Claim C9 (amended): riskScore is the sum of the independent increments —
+30 when strictly more than 80% of the transactions weigh under 100 g each,
+40 when all transactions share one identical weight and the count exceeds 5,
+20 (flat) when any citizen appears more than once in the batch, +25 when the
average weight per transaction exceeds 10000 g, +15 when the batch has at
least two transactions and all creation timestamps span under 60 seconds —
with isSuspicious true iff riskScore > 50; a batch that is not found yields
riskScore 100 with a single reason and isSuspicious true. -/
theorem detectSuspiciousPatterns_amended (s : BatchTransactionSummary) :
    (detectSuspiciousPatterns (some s)).riskScore =
        (if (s.transactionCount : ℚ) * (8/10) <
            ((s.transactions.filter
              (fun t => decide (t.weight_grams < 100))).length : ℚ)
          then 30 else 0) +
          (if (s.transactions.map Tx.weight_grams).dedup.length = 1 ∧
              5 < s.transactionCount then 40 else 0) +
          (if ¬ (s.transactions.map Tx.citizen_id).Nodup then 20 else 0) +
          (if 10000 < s.totalOriginalWeight / (s.transactionCount : ℚ) then 25
            else 0) +
          (if 1 < s.transactions.length ∧ timeSpan s.transactions < 60000
            then 15 else 0) ∧
      ((detectSuspiciousPatterns (some s)).isSuspicious = true ↔
        50 < (detectSuspiciousPatterns (some s)).riskScore) ∧
      (detectSuspiciousPatterns none).riskScore = 100 ∧
      (detectSuspiciousPatterns none).reasons = ["Batch not found"] ∧
      (detectSuspiciousPatterns none).isSuspicious = true := by
  refine ⟨?_, ?_, rfl, rfl, rfl⟩
  · simp only [detectSuspiciousPatterns, decide_eq_true_eq,
      dup_filter_pos_iff_not_nodup]
  · simp [detectSuspiciousPatterns]

/-- Claim C9 witness: concrete instantiation — the batch-not-found result
scores 100. -/
theorem detectSuspiciousPatterns_amended_witness :
    (detectSuspiciousPatterns none).riskScore = 100 :=
  (detectSuspiciousPatterns_amended (summaryOf 1 [])).2.2.1

end EarthX
